import Mathlib

/-!
Verification of the inventory variant-expansion and quantity-distribution
logic of the xshopai db-seeder (src/seed/seed.py).

The embedding models the pure core of `seed_inventory` (the per-item
expansion of a base SKU into variant inventory rows, seed.py lines
694-821) and the helper `generate_variant_sku` (seed.py lines 35-49).
Python machine details are modelled as follows: Python `int` is `Int`
with floor division (`Int.fdiv`) and Python-style modulo (`Int.fmod`);
`str.upper()` is modelled on its ASCII fragment (`Char.toUpper` maps
only `'a'`-`'z'`); decimal cost values are `Rat`.
-/

namespace Seed

/-- Input totals for one inventory item, as read from inventory.json
(quantity_available, quantity_reserved, reorder_level, max_stock,
cost_per_unit). -/
structure InventoryTotals where
  quantity_available : Int
  quantity_reserved : Int
  reorder_level : Int
  max_stock : Int
  cost_per_unit : Rat
deriving DecidableEq

/-- One emitted inventory row, the tuple bound by the INSERT INTO
inventory_items statements in seed.py. -/
structure InventoryRow where
  sku : String
  quantity_available : Int
  quantity_reserved : Int
  reorder_level : Int
  max_stock : Int
  cost_per_unit : Rat
deriving DecidableEq

/-- ASCII model of Python str.upper(). -/
def pyUpper (s : String) : String := String.mk (s.data.map Char.toUpper)

/-- Python s.replace(' ', '-'): every space becomes a hyphen. -/
def replaceSpaces (s : String) : String :=
  String.mk (s.data.map (fun c => if c = ' ' then '-' else c))

/-- Python re.sub(r'[^A-Z0-9]', '', s): keep only ASCII uppercase
letters and digits (seed.py lines 44, 47). -/
def cleanAlnum (s : String) : String :=
  String.mk (s.data.filter (fun c => decide (('A' ≤ c ∧ c ≤ 'Z') ∨ ('0' ≤ c ∧ c ≤ '9'))))

/-- The token normalization used by seed_inventory when building variant
SKUs: tok.upper().replace(' ', '-') (seed.py lines 715, 753, 784). -/
def normalize_hyphen (t : String) : String := replaceSpaces (pyUpper t)

/-- generate_variant_sku from seed.py lines 35-49.  `none` models a
Python `None` argument; `if color:` is Python truthiness (not None and
non-empty). -/
def generate_variant_sku (base_sku : String) (color size : Option String) : String :=
  let v1 := base_sku
  let v2 := match color with
    | some c => if c ≠ "" then v1 ++ "-" ++ cleanAlnum (pyUpper c) else v1
    | none => v1
  match size with
  | some s => if s ≠ "" then v2 ++ "-" ++ cleanAlnum (pyUpper s) else v2
  | none => v2

/-- The (color, size) pairs visited by the nested loops of case 1 of
seed_inventory (outer loop over colors, inner loop over sizes,
seed.py lines 712-713). -/
def crossPairs (colors sizes : List String) : List (String × String) :=
  colors.flatMap (fun c => sizes.map (fun s => (c, s)))

/-- Number of variants produced by one expansion, following the 4-way
case analysis of seed_inventory (total_variants in each branch;
the no-axis case emits the single base row). -/
def totalVariants (colors sizes : List String) : Nat :=
  if colors ≠ [] ∧ sizes ≠ [] then colors.length * sizes.length
  else if sizes ≠ [] ∧ colors = [] then sizes.length
  else if colors ≠ [] ∧ sizes = [] then colors.length
  else 1

/-- Case 1 of seed_inventory (seed.py lines 702-740): both colors and
sizes present.  The running variant_index of the nested loops is the
position in the cross-product enumeration.  Note the size code is
uppercased only (line 716), while the color code also has spaces
replaced by hyphens (line 715). -/
def variantRowsBoth (base_sku : String) (colors sizes : List String)
    (item : InventoryTotals) : List InventoryRow :=
  let total_variants : Int := (colors.length * sizes.length : Nat)
  let quantity_per_variant := max 1 (item.quantity_available.fdiv total_variants)
  let extra_quantity := item.quantity_available.fmod total_variants
  (crossPairs colors sizes).enum.map (fun p =>
    { sku := base_sku ++ "-" ++ normalize_hyphen p.2.1 ++ "-" ++ pyUpper p.2.2
      quantity_available := quantity_per_variant + (if (p.1 : Int) < extra_quantity then 1 else 0)
      quantity_reserved := 0
      reorder_level := max 1 (item.reorder_level.fdiv total_variants)
      max_stock := max 10 (item.max_stock.fdiv total_variants)
      cost_per_unit := item.cost_per_unit })

/-- Case 2 of seed_inventory (seed.py lines 743-773): sizes but no
colors.  Here the size code does get spaces replaced by hyphens
(line 753). -/
def variantRowsSizes (base_sku : String) (sizes : List String)
    (item : InventoryTotals) : List InventoryRow :=
  let total_variants : Int := (sizes.length : Nat)
  let quantity_per_variant := max 1 (item.quantity_available.fdiv total_variants)
  let extra_quantity := item.quantity_available.fmod total_variants
  sizes.enum.map (fun p =>
    { sku := base_sku ++ "-" ++ normalize_hyphen p.2
      quantity_available := quantity_per_variant + (if (p.1 : Int) < extra_quantity then 1 else 0)
      quantity_reserved := 0
      reorder_level := max 1 (item.reorder_level.fdiv total_variants)
      max_stock := max 10 (item.max_stock.fdiv total_variants)
      cost_per_unit := item.cost_per_unit })

/-- Case 3 of seed_inventory (seed.py lines 776-804): colors but no
sizes. -/
def variantRowsColors (base_sku : String) (colors : List String)
    (item : InventoryTotals) : List InventoryRow :=
  let total_variants : Int := (colors.length : Nat)
  let quantity_per_variant := max 1 (item.quantity_available.fdiv total_variants)
  let extra_quantity := item.quantity_available.fmod total_variants
  colors.enum.map (fun p =>
    { sku := base_sku ++ "-" ++ normalize_hyphen p.2
      quantity_available := quantity_per_variant + (if (p.1 : Int) < extra_quantity then 1 else 0)
      quantity_reserved := 0
      reorder_level := max 1 (item.reorder_level.fdiv total_variants)
      max_stock := max 10 (item.max_stock.fdiv total_variants)
      cost_per_unit := item.cost_per_unit })

/-- Case 4 of seed_inventory (seed.py lines 806-821): no variation
axes, one row with the totals copied verbatim. -/
def baseRow (base_sku : String) (item : InventoryTotals) : InventoryRow :=
  { sku := base_sku
    quantity_available := item.quantity_available
    quantity_reserved := item.quantity_reserved
    reorder_level := item.reorder_level
    max_stock := item.max_stock
    cost_per_unit := item.cost_per_unit }

/-- The per-item expansion of seed_inventory (seed.py lines 694-821):
the 4-way branch on has_colors / has_sizes, in source order. -/
def seed_inventory_rows (base_sku : String) (colors sizes : List String)
    (item : InventoryTotals) : List InventoryRow :=
  if colors ≠ [] ∧ sizes ≠ [] then variantRowsBoth base_sku colors sizes item
  else if sizes ≠ [] ∧ colors = [] then variantRowsSizes base_sku sizes item
  else if colors ≠ [] ∧ sizes = [] then variantRowsColors base_sku colors item
  else [baseRow base_sku item]

/-- Quantity assigned to the variant at enumeration position i when
quantity qa is distributed over n variants: the base share
max 1 (qa fdiv n), plus one unit for the first (qa fmod n) positions. -/
def shareAt (qa : Int) (n : Nat) (i : Nat) : Int :=
  max 1 (qa.fdiv (n : Int)) + (if (i : Int) < qa.fmod (n : Int) then 1 else 0)

/-- The inventory-side variant SKU construction of case 1 of
seed_inventory (seed.py lines 714-717): color uppercased with spaces
replaced by hyphens, size uppercased only. -/
def inventory_variant_sku (base_sku color size : String) : String :=
  base_sku ++ "-" ++ normalize_hyphen color ++ "-" ++ pyUpper size

/-- The ASCII alphanumeric characters, i.e. those whose uppercase image
survives the re.sub(r'[^A-Z0-9]', '') filter of generate_variant_sku. -/
def asciiAlnum : List Char :=
  "ABCDEFGHIJKLMNOPQRSTUVWXYZabcdefghijklmnopqrstuvwxyz0123456789".data

/-- A token made only of ASCII alphanumeric characters (no whitespace,
no punctuation). -/
def isAlnumToken (t : String) : Prop := ∀ ch ∈ t.data, ch ∈ asciiAlnum

instance (t : String) : Decidable (isAlnumToken t) := by
  unfold isAlnumToken
  infer_instance

section Helpers

lemma map_enum_fst_eq {α β : Type _} (l : List α) (f : Nat → β) :
    l.enum.map (fun p => f p.1) = (List.range l.length).map f := by
  rw [show (fun p : Nat × α => f p.1) = f ∘ Prod.fst from rfl, ← List.map_map,
    List.enum_map_fst]

lemma map_enum_snd_eq {α β : Type _} (l : List α) (f : α → β) :
    l.enum.map (fun p => f p.2) = l.map f := by
  rw [show (fun p : Nat × α => f p.2) = f ∘ Prod.snd from rfl, ← List.map_map,
    List.enum_map_snd]

lemma crossPairs_eq_product (colors sizes : List String) :
    crossPairs colors sizes = colors ×ˢ sizes := rfl

lemma crossPairs_length (colors sizes : List String) :
    (crossPairs colors sizes).length = colors.length * sizes.length := by
  rw [crossPairs_eq_product, List.length_product]

lemma sum_shares (n : Nat) (b r : Int) (hr : 0 ≤ r) :
    ((List.range n).map (fun i : Nat => b + if (i : Int) < r then (1 : Int) else 0)).sum
      = n * b + min (n : Int) r := by
  induction n with
  | zero => simpa using (min_eq_left hr).symm
  | succ m ih =>
    rw [List.range_succ, List.map_append, List.sum_append, ih]
    simp only [List.map_cons, List.map_nil, List.sum_cons, List.sum_nil, add_zero]
    push_cast
    by_cases h : (m : Int) < r
    · rw [if_pos h, min_eq_left (by omega : (m : Int) ≤ r),
        min_eq_left (by omega : (m : Int) + 1 ≤ r)]
      ring
    · rw [if_neg h, min_eq_right (by omega : r ≤ (m : Int)),
        min_eq_right (by omega : r ≤ (m : Int) + 1)]
      ring

lemma sum_shareAt_of_le (n : Nat) (hn : 0 < n) (qa : Int) (hqa : (n : Int) ≤ qa) :
    ((List.range n).map (shareAt qa n)).sum = qa := by
  have hn' : (0 : Int) < (n : Int) := by exact_mod_cast hn
  have h0 : (0 : Int) ≤ qa := le_trans hn'.le hqa
  have hdiv : 1 ≤ qa / (n : Int) := by
    rw [Int.le_ediv_iff_mul_le hn']; omega
  have hmodlt : qa % (n : Int) < (n : Int) := Int.emod_lt_of_pos qa hn'
  have hmodnn : 0 ≤ qa % (n : Int) := Int.emod_nonneg qa (ne_of_gt hn')
  unfold shareAt
  rw [Int.fdiv_eq_ediv _ hn'.le, Int.fmod_eq_emod _ hn'.le, max_eq_right hdiv,
    sum_shares n _ _ hmodnn, min_eq_right hmodlt.le]
  have := Int.ediv_add_emod qa (n : Int)
  omega

lemma shareAt_of_lt (n : Nat) (hn : 0 < n) (qa : Int) (h0 : 0 ≤ qa)
    (hlt : qa < (n : Int)) (i : Nat) :
    shareAt qa n i = 1 + (if (i : Int) < qa then (1 : Int) else 0) := by
  have hn' : (0 : Int) < (n : Int) := by exact_mod_cast hn
  unfold shareAt
  rw [Int.fdiv_eq_ediv _ hn'.le, Int.fmod_eq_emod _ hn'.le,
    Int.ediv_eq_zero_of_lt h0 hlt, Int.emod_eq_of_lt h0 hlt]
  rfl

lemma sum_shareAt_of_lt (n : Nat) (hn : 0 < n) (qa : Int) (h0 : 0 ≤ qa)
    (hlt : qa < (n : Int)) :
    ((List.range n).map (shareAt qa n)).sum = (n : Int) + qa := by
  rw [List.map_congr_left (fun i _ => shareAt_of_lt n hn qa h0 hlt i),
    sum_shares n 1 qa h0, min_eq_right hlt.le, mul_one]

lemma variantRowsBoth_map_qty (b : String) (colors sizes : List String)
    (item : InventoryTotals) :
    (variantRowsBoth b colors sizes item).map (fun r => r.quantity_available)
      = (List.range (colors.length * sizes.length)).map
          (shareAt item.quantity_available (colors.length * sizes.length)) := by
  unfold variantRowsBoth
  rw [List.map_map]
  have := map_enum_fst_eq (crossPairs colors sizes)
    (fun i => shareAt item.quantity_available (colors.length * sizes.length) i)
  rw [crossPairs_length] at this
  exact this

lemma variantRowsSizes_map_qty (b : String) (sizes : List String)
    (item : InventoryTotals) :
    (variantRowsSizes b sizes item).map (fun r => r.quantity_available)
      = (List.range sizes.length).map (shareAt item.quantity_available sizes.length) := by
  unfold variantRowsSizes
  rw [List.map_map]
  exact map_enum_fst_eq sizes (fun i => shareAt item.quantity_available sizes.length i)

lemma variantRowsColors_map_qty (b : String) (colors : List String)
    (item : InventoryTotals) :
    (variantRowsColors b colors item).map (fun r => r.quantity_available)
      = (List.range colors.length).map (shareAt item.quantity_available colors.length) := by
  unfold variantRowsColors
  rw [List.map_map]
  exact map_enum_fst_eq colors (fun i => shareAt item.quantity_available colors.length i)

lemma variantRowsBoth_map_sku (b : String) (colors sizes : List String)
    (item : InventoryTotals) :
    (variantRowsBoth b colors sizes item).map (fun r => r.sku)
      = (crossPairs colors sizes).map
          (fun p => b ++ "-" ++ normalize_hyphen p.1 ++ "-" ++ pyUpper p.2) := by
  unfold variantRowsBoth
  rw [List.map_map]
  exact map_enum_snd_eq (crossPairs colors sizes)
    (fun p => b ++ "-" ++ normalize_hyphen p.1 ++ "-" ++ pyUpper p.2)

lemma variantRowsSizes_map_sku (b : String) (sizes : List String)
    (item : InventoryTotals) :
    (variantRowsSizes b sizes item).map (fun r => r.sku)
      = sizes.map (fun s => b ++ "-" ++ normalize_hyphen s) := by
  unfold variantRowsSizes
  rw [List.map_map]
  exact map_enum_snd_eq sizes (fun s => b ++ "-" ++ normalize_hyphen s)

lemma variantRowsColors_map_sku (b : String) (colors : List String)
    (item : InventoryTotals) :
    (variantRowsColors b colors item).map (fun r => r.sku)
      = colors.map (fun c => b ++ "-" ++ normalize_hyphen c) := by
  unfold variantRowsColors
  rw [List.map_map]
  exact map_enum_snd_eq colors (fun c => b ++ "-" ++ normalize_hyphen c)

lemma seed_rows_both {colors sizes : List String} (b : String)
    (item : InventoryTotals) (h1 : colors ≠ []) (h2 : sizes ≠ []) :
    seed_inventory_rows b colors sizes item = variantRowsBoth b colors sizes item := by
  simp [seed_inventory_rows, h1, h2]

lemma seed_rows_sizes {sizes : List String} (b : String)
    (item : InventoryTotals) (h2 : sizes ≠ []) :
    seed_inventory_rows b [] sizes item = variantRowsSizes b sizes item := by
  simp [seed_inventory_rows, h2]

lemma seed_rows_colors {colors : List String} (b : String)
    (item : InventoryTotals) (h1 : colors ≠ []) :
    seed_inventory_rows b colors [] item = variantRowsColors b colors item := by
  simp [seed_inventory_rows, h1]

lemma seed_rows_base (b : String) (item : InventoryTotals) :
    seed_inventory_rows b [] [] item = [baseRow b item] := by
  simp [seed_inventory_rows]

lemma totalVariants_both {colors sizes : List String} (h1 : colors ≠ [])
    (h2 : sizes ≠ []) : totalVariants colors sizes = colors.length * sizes.length := by
  simp [totalVariants, h1, h2]

lemma totalVariants_sizes {sizes : List String} (h2 : sizes ≠ []) :
    totalVariants [] sizes = sizes.length := by
  simp [totalVariants, h2]

lemma totalVariants_colors {colors : List String} (h1 : colors ≠ []) :
    totalVariants colors [] = colors.length := by
  simp [totalVariants, h1]

lemma totalVariants_base : totalVariants [] [] = 1 := by
  simp [totalVariants]

lemma totalVariants_pos (colors sizes : List String) :
    0 < totalVariants colors sizes := by
  unfold totalVariants
  split
  · next h => exact Nat.mul_pos (List.length_pos.mpr h.1) (List.length_pos.mpr h.2)
  · split
    · next h => exact List.length_pos.mpr h.1
    · split
      · next h => exact List.length_pos.mpr h.1
      · exact Nat.one_pos

lemma sku2_data (b x : String) :
    (b ++ "-" ++ x).data = b.data ++ '-' :: x.data := by
  simp [String.data_append]

lemma sku3_data (b x y : String) :
    (b ++ "-" ++ x ++ "-" ++ y).data
      = b.data ++ '-' :: (x.data ++ '-' :: y.data) := by
  simp [String.data_append]

lemma sep_split {a c b d : List Char} (ha : '-' ∉ a) (hc : '-' ∉ c)
    (h : a ++ '-' :: b = c ++ '-' :: d) : a = c ∧ b = d := by
  induction a generalizing c with
  | nil =>
    cases c with
    | nil =>
      simp only [List.nil_append, List.cons.injEq] at h
      exact ⟨rfl, h.2⟩
    | cons y ys =>
      simp only [List.nil_append, List.cons_append, List.cons.injEq] at h
      exact absurd (by rw [← h.1]; exact List.mem_cons_self _ _) hc
  | cons x xs ih =>
    cases c with
    | nil =>
      simp only [List.nil_append, List.cons_append, List.cons.injEq] at h
      exact absurd (by rw [h.1]; exact List.mem_cons_self _ _) ha
    | cons y ys =>
      simp only [List.cons_append, List.cons.injEq] at h
      obtain ⟨hxy, h2⟩ := h
      have hrec := ih (fun hm => ha (List.mem_cons_of_mem x hm))
        (fun hm => hc (List.mem_cons_of_mem y hm)) h2
      exact ⟨by rw [hxy, hrec.1], hrec.2⟩

lemma sku2_inj (b : String) :
    Function.Injective (fun x : String => b ++ "-" ++ x) := by
  intro x y h
  have hd := congrArg String.data h
  rw [sku2_data, sku2_data] at hd
  have h1 := List.append_cancel_left hd
  injection h1 with _ h2
  exact String.ext h2

lemma sku3_inj (b : String) {x₁ y₁ x₂ y₂ : String}
    (hx₁ : '-' ∉ x₁.data) (hx₂ : '-' ∉ x₂.data)
    (h : b ++ "-" ++ x₁ ++ "-" ++ y₁ = b ++ "-" ++ x₂ ++ "-" ++ y₂) :
    x₁ = x₂ ∧ y₁ = y₂ := by
  have hd := congrArg String.data h
  rw [sku3_data, sku3_data] at hd
  have h1 := List.append_cancel_left hd
  injection h1 with _ h2
  have hs := sep_split hx₁ hx₂ h2
  exact ⟨String.ext hs.1, String.ext hs.2⟩

lemma alnum_upper_facts :
    ∀ ch ∈ asciiAlnum,
      (('A' ≤ Char.toUpper ch ∧ Char.toUpper ch ≤ 'Z') ∨
        ('0' ≤ Char.toUpper ch ∧ Char.toUpper ch ≤ '9')) ∧
      Char.toUpper ch ≠ ' ' := by decide

lemma cleanAlnum_of_alnum {t : String} (h : isAlnumToken t) :
    cleanAlnum (pyUpper t) = pyUpper t := by
  unfold cleanAlnum pyUpper
  congr 1
  rw [List.filter_eq_self]
  intro a ha
  obtain ⟨x, hx, rfl⟩ := List.mem_map.mp ha
  exact decide_eq_true (alnum_upper_facts x (h x hx)).1

lemma replaceSpaces_of_alnum {t : String} (h : isAlnumToken t) :
    replaceSpaces (pyUpper t) = pyUpper t := by
  unfold replaceSpaces pyUpper
  congr 1
  have hpt : ∀ a ∈ t.data.map Char.toUpper, (if a = ' ' then '-' else a) = a := by
    intro a ha
    obtain ⟨x, hx, rfl⟩ := List.mem_map.mp ha
    rw [if_neg (alnum_upper_facts x (h x hx)).2]
  rw [List.map_congr_left hpt, List.map_id']

lemma seed_rows_map_qty (base : String) (colors sizes : List String)
    (item : InventoryTotals) (hax : colors ≠ [] ∨ sizes ≠ []) :
    (seed_inventory_rows base colors sizes item).map (fun r => r.quantity_available)
      = (List.range (totalVariants colors sizes)).map
          (shareAt item.quantity_available (totalVariants colors sizes)) := by
  by_cases hc : colors = []
  · by_cases hs : sizes = []
    · subst hc; subst hs; simp at hax
    · subst hc
      rw [seed_rows_sizes base item hs, variantRowsSizes_map_qty,
        totalVariants_sizes hs]
  · by_cases hs : sizes = []
    · subst hs
      rw [seed_rows_colors base item hc, variantRowsColors_map_qty,
        totalVariants_colors hc]
    · rw [seed_rows_both base item hc hs, variantRowsBoth_map_qty,
        totalVariants_both hc hs]

end Helpers

/-- C1: For every expansion with at least one variation axis (cases 1-3),
letting n = total_variants, if quantity_available ≥ n then the sum of
quantity_available over all emitted rows equals the input
quantity_available exactly. -/
theorem quantity_conservation (base : String) (colors sizes : List String)
    (item : InventoryTotals) (hax : colors ≠ [] ∨ sizes ≠ [])
    (hq : (totalVariants colors sizes : Int) ≤ item.quantity_available) :
    ((seed_inventory_rows base colors sizes item).map
      (fun r => r.quantity_available)).sum = item.quantity_available := by
  rw [seed_rows_map_qty base colors sizes item hax]
  exact sum_shareAt_of_le _ (totalVariants_pos colors sizes) _ hq

/-- Witness for C1 at spec Example 1 (SKU1, quantities 3+3+2+2 = 10). -/
theorem quantity_conservation_witness :
    ((seed_inventory_rows "SKU1" ["Black", "White"] ["M", "L"]
        { quantity_available := 10, quantity_reserved := 0, reorder_level := 8,
          max_stock := 100, cost_per_unit := 5 }).map
      (fun r => r.quantity_available)).sum = 10 :=
  quantity_conservation "SKU1" ["Black", "White"] ["M", "L"]
    { quantity_available := 10, quantity_reserved := 0, reorder_level := 8,
      max_stock := 100, cost_per_unit := 5 }
    (Or.inl (by decide)) (by decide)

/-- C2 counterexample: for base_sku = "Y", colors = ["Red"],
sizes = ["S","M","L","XL","XXL"], quantity_available = 2, the code emits
quantities [2,2,1,1,1] (total 7), not five rows of quantity 1 (total 5):
the remainder loop adds one extra unit to each of the first
quantity_available mod n = 2 variants on top of the floored base share 1. -/
theorem quantity_floor_counterexample :
    ((seed_inventory_rows "Y" ["Red"] ["S", "M", "L", "XL", "XXL"]
        { quantity_available := 2, quantity_reserved := 0, reorder_level := 3,
          max_stock := 30, cost_per_unit := 1 }).map
      (fun r => r.quantity_available)) = [2, 2, 1, 1, 1] ∧
    ((seed_inventory_rows "Y" ["Red"] ["S", "M", "L", "XL", "XXL"]
        { quantity_available := 2, quantity_reserved := 0, reorder_level := 3,
          max_stock := 30, cost_per_unit := 1 }).map
      (fun r => r.quantity_available)) ≠ [1, 1, 1, 1, 1] ∧
    ((seed_inventory_rows "Y" ["Red"] ["S", "M", "L", "XL", "XXL"]
        { quantity_available := 2, quantity_reserved := 0, reorder_level := 3,
          max_stock := 30, cost_per_unit := 1 }).map
      (fun r => r.quantity_available)).sum ≠ 5 :=
  ⟨by decide, by decide, by decide⟩

/-- C2 amended: for every expansion with at least one variation axis, if
0 ≤ quantity_available < total_variants then the first
quantity_available rows (in enumeration order) get quantity 2 and the
remaining rows get quantity 1, the sum of emitted quantities is
total_variants + quantity_available, which exceeds the input; in
particular for base_sku = "Y", colors = ["Red"],
sizes = ["S","M","L","XL","XXL"], quantity_available = 2, the quantities
are [2,2,1,1,1] with total 7 > 2. -/
theorem quantity_floor_amended (base : String) (colors sizes : List String)
    (item : InventoryTotals) (hax : colors ≠ [] ∨ sizes ≠ [])
    (h0 : 0 ≤ item.quantity_available)
    (hlt : item.quantity_available < (totalVariants colors sizes : Int)) :
    ((seed_inventory_rows base colors sizes item).map (fun r => r.quantity_available))
        = (List.range (totalVariants colors sizes)).map
            (fun i : Nat => 1 + if (i : Int) < item.quantity_available
              then (1 : Int) else 0) ∧
    ((seed_inventory_rows base colors sizes item).map
        (fun r => r.quantity_available)).sum
      = (totalVariants colors sizes : Int) + item.quantity_available ∧
    item.quantity_available <
      ((seed_inventory_rows base colors sizes item).map
        (fun r => r.quantity_available)).sum ∧
    ((seed_inventory_rows "Y" ["Red"] ["S", "M", "L", "XL", "XXL"]
        { quantity_available := 2, quantity_reserved := 0, reorder_level := 3,
          max_stock := 30, cost_per_unit := 1 }).map
      (fun r => r.quantity_available)) = [2, 2, 1, 1, 1] := by
  have hn := totalVariants_pos colors sizes
  have hn' : (1 : Int) ≤ (totalVariants colors sizes : Int) := by exact_mod_cast hn
  have hmap := seed_rows_map_qty base colors sizes item hax
  refine ⟨?_, ?_, ?_, by decide⟩
  · rw [hmap]
    exact List.map_congr_left
      (fun i _ => shareAt_of_lt _ hn _ h0 hlt i)
  · rw [hmap, sum_shareAt_of_lt _ hn _ h0 hlt]
  · rw [hmap, sum_shareAt_of_lt _ hn _ h0 hlt]
    omega

/-- Witness for the amended C2 at the Y example (sum is 5 + 2 = 7). -/
theorem quantity_floor_amended_witness :
    ((seed_inventory_rows "Y" ["Red"] ["S", "M", "L", "XL", "XXL"]
        { quantity_available := 2, quantity_reserved := 0, reorder_level := 3,
          max_stock := 30, cost_per_unit := 1 }).map
      (fun r => r.quantity_available)).sum
      = (totalVariants ["Red"] ["S", "M", "L", "XL", "XXL"] : Int) + 2 :=
  (quantity_floor_amended "Y" ["Red"] ["S", "M", "L", "XL", "XXL"]
    { quantity_available := 2, quantity_reserved := 0, reorder_level := 3,
      max_stock := 30, cost_per_unit := 1 }
    (Or.inl (by decide)) (by decide) (by decide)).2.1

/-- C3: For every expansion with at least one variation axis, letting
n = total_variants, each emitted row's quantity_available equals
max(1, qa fdiv n) plus 1 for exactly the first (qa fmod n) variants in
enumeration order (shareAt), and for the SKU1 example the quantities in
order are [3,3,2,2]. -/
theorem per_variant_quantity (base : String) (colors sizes : List String)
    (item : InventoryTotals) (hax : colors ≠ [] ∨ sizes ≠ []) :
    ((seed_inventory_rows base colors sizes item).map (fun r => r.quantity_available))
        = (List.range (totalVariants colors sizes)).map
            (shareAt item.quantity_available (totalVariants colors sizes)) ∧
    ((seed_inventory_rows "SKU1" ["Black", "White"] ["M", "L"]
        { quantity_available := 10, quantity_reserved := 0, reorder_level := 8,
          max_stock := 100, cost_per_unit := 5 }).map
      (fun r => r.quantity_available)) = [3, 3, 2, 2] :=
  ⟨seed_rows_map_qty base colors sizes item hax, by decide⟩

/-- Witness for C3 at spec Example 2 (BOOK1, 7 over 3 sizes). -/
theorem per_variant_quantity_witness :
    ((seed_inventory_rows "BOOK1" [] ["Paperback", "Hardcover", "Audiobook"]
        { quantity_available := 7, quantity_reserved := 0, reorder_level := 4,
          max_stock := 40, cost_per_unit := 2 }).map
      (fun r => r.quantity_available))
      = (List.range (totalVariants [] ["Paperback", "Hardcover", "Audiobook"])).map
          (shareAt 7 (totalVariants [] ["Paperback", "Hardcover", "Audiobook"])) :=
  (per_variant_quantity "BOOK1" [] ["Paperback", "Hardcover", "Audiobook"]
    { quantity_available := 7, quantity_reserved := 0, reorder_level := 4,
      max_stock := 40, cost_per_unit := 2 } (Or.inr (by decide))).1

/-- C4: the number of emitted rows is |colors| * |sizes| when both axes
are non-empty, |sizes| when only sizes is non-empty, |colors| when only
colors is non-empty, and exactly 1 when both are empty. -/
theorem row_cardinality (base : String) (colors sizes : List String)
    (item : InventoryTotals) :
    (colors ≠ [] → sizes ≠ [] →
      (seed_inventory_rows base colors sizes item).length
        = colors.length * sizes.length) ∧
    (colors = [] → sizes ≠ [] →
      (seed_inventory_rows base colors sizes item).length = sizes.length) ∧
    (colors ≠ [] → sizes = [] →
      (seed_inventory_rows base colors sizes item).length = colors.length) ∧
    (colors = [] → sizes = [] →
      (seed_inventory_rows base colors sizes item).length = 1) := by
  refine ⟨fun h1 h2 => ?_, fun h1 h2 => ?_, fun h1 h2 => ?_, fun h1 h2 => ?_⟩
  · rw [seed_rows_both base item h1 h2]
    unfold variantRowsBoth
    simp [crossPairs_length]
  · subst h1
    rw [seed_rows_sizes base item h2]
    unfold variantRowsSizes
    simp
  · subst h2
    rw [seed_rows_colors base item h1]
    unfold variantRowsColors
    simp
  · subst h1; subst h2
    rw [seed_rows_base]
    rfl

/-- Witness for C4 at spec Example 1 (2 colors x 2 sizes = 4 rows). -/
theorem row_cardinality_witness :
    (seed_inventory_rows "SKU1" ["Black", "White"] ["M", "L"]
      { quantity_available := 10, quantity_reserved := 0, reorder_level := 8,
        max_stock := 100, cost_per_unit := 5 }).length = 4 :=
  (row_cardinality "SKU1" ["Black", "White"] ["M", "L"]
    { quantity_available := 10, quantity_reserved := 0, reorder_level := 8,
      max_stock := 100, cost_per_unit := 5 }).1 (by decide) (by decide)

/-- C5 counterexample: the expansion does not fail on an empty base_sku
(it emits the usual variant row, here with SKU "-RED-S"), and it does
not fail on negative quantity_available / reorder_level / max_stock (the
no-axis case copies them verbatim into the emitted row).  There is no
validation and no error path in seed_inventory. -/
theorem no_validation_counterexample :
    ((seed_inventory_rows "" ["Red"] ["S"]
        { quantity_available := 5, quantity_reserved := 0, reorder_level := 2,
          max_stock := 20, cost_per_unit := 1 }).map (fun r => r.sku))
      = ["-RED-S"] ∧
    (seed_inventory_rows "A" [] []
        { quantity_available := -5, quantity_reserved := 0, reorder_level := -1,
          max_stock := -10, cost_per_unit := 2 })
      = [{ sku := "A", quantity_available := -5, quantity_reserved := 0,
           reorder_level := -1, max_stock := -10, cost_per_unit := 2 }] :=
  ⟨by decide, by decide⟩

/-- C5 amended: the expansion never fails and performs no validation:
for every input (including an empty base_sku and negative totals) it
succeeds and emits exactly totalVariants rows. -/
theorem no_validation_amended (base : String) (colors sizes : List String)
    (item : InventoryTotals) :
    (seed_inventory_rows base colors sizes item).length
      = totalVariants colors sizes := by
  by_cases hc : colors = []
  · by_cases hs : sizes = []
    · subst hc; subst hs
      rw [seed_rows_base, totalVariants_base]
      rfl
    · subst hc
      rw [seed_rows_sizes base item hs, totalVariants_sizes hs]
      unfold variantRowsSizes
      simp
  · by_cases hs : sizes = []
    · subst hs
      rw [seed_rows_colors base item hc, totalVariants_colors hc]
      unfold variantRowsColors
      simp
    · rw [seed_rows_both base item hc hs, totalVariants_both hc hs]
      unfold variantRowsBoth
      simp [crossPairs_length]

/-- C6 counterexample: with the valid input base_sku = "A",
colors = ["Red","Red"], sizes = ["S"] (non-empty string tokens), the
expansion emits the SKU "A-RED-S" twice, so the multiset of emitted
SKUs has a duplicate. -/
theorem sku_uniqueness_counterexample :
    ((seed_inventory_rows "A" ["Red", "Red"] ["S"]
        { quantity_available := 4, quantity_reserved := 0, reorder_level := 2,
          max_stock := 20, cost_per_unit := 1 }).map (fun r => r.sku))
      = ["A-RED-S", "A-RED-S"] ∧
    ¬ ((seed_inventory_rows "A" ["Red", "Red"] ["S"]
        { quantity_available := 4, quantity_reserved := 0, reorder_level := 2,
          max_stock := 20, cost_per_unit := 1 }).map (fun r => r.sku)).Nodup :=
  ⟨by decide, by decide⟩

/-- C6 amended: the emitted SKUs contain no duplicates provided the
normalized color tokens are pairwise distinct and hyphen-free, and the
size tokens are pairwise distinct both after uppercasing and after
hyphen-normalization. -/
theorem sku_uniqueness_amended (base : String) (colors sizes : List String)
    (item : InventoryTotals)
    (hcn : (colors.map normalize_hyphen).Nodup)
    (hsu : (sizes.map pyUpper).Nodup)
    (hsn : (sizes.map normalize_hyphen).Nodup)
    (hhf : ∀ c ∈ colors, '-' ∉ (normalize_hyphen c).data) :
    ((seed_inventory_rows base colors sizes item).map (fun r => r.sku)).Nodup := by
  by_cases hc : colors = []
  · by_cases hs : sizes = []
    · subst hc; subst hs
      rw [seed_rows_base]
      simp
    · subst hc
      rw [seed_rows_sizes base item hs, variantRowsSizes_map_sku]
      have hrw : sizes.map (fun s => base ++ "-" ++ normalize_hyphen s)
          = (sizes.map normalize_hyphen).map (fun x => base ++ "-" ++ x) := by
        rw [List.map_map]
        rfl
      rw [hrw]
      exact hsn.map (sku2_inj base)
  · by_cases hs : sizes = []
    · subst hs
      rw [seed_rows_colors base item hc, variantRowsColors_map_sku]
      have hrw : colors.map (fun c => base ++ "-" ++ normalize_hyphen c)
          = (colors.map normalize_hyphen).map (fun x => base ++ "-" ++ x) := by
        rw [List.map_map]
        rfl
      rw [hrw]
      exact hcn.map (sku2_inj base)
    · rw [seed_rows_both base item hc hs, variantRowsBoth_map_sku]
      apply List.Nodup.map_on
      · rintro ⟨pa, pb⟩ hp ⟨qa, qb⟩ hq heq
        rw [crossPairs_eq_product] at hp hq
        have hp' := List.pair_mem_product.mp hp
        have hq' := List.pair_mem_product.mp hq
        have h3 := sku3_inj base (hhf pa hp'.1) (hhf qa hq'.1) heq
        have e1 : pa = qa := List.inj_on_of_nodup_map hcn hp'.1 hq'.1 h3.1
        have e2 : pb = qb := List.inj_on_of_nodup_map hsu hp'.2 hq'.2 h3.2
        rw [e1, e2]
      · rw [crossPairs_eq_product]
        exact (List.Nodup.of_map _ hcn).product (List.Nodup.of_map _ hsu)

/-- Witness for the amended C6 at spec Example 1 (distinct, hyphen-free
tokens give four distinct SKUs). -/
theorem sku_uniqueness_amended_witness :
    ((seed_inventory_rows "SKU1" ["Black", "White"] ["M", "L"]
        { quantity_available := 10, quantity_reserved := 0, reorder_level := 8,
          max_stock := 100, cost_per_unit := 5 }).map (fun r => r.sku)).Nodup :=
  sku_uniqueness_amended "SKU1" ["Black", "White"] ["M", "L"]
    { quantity_available := 10, quantity_reserved := 0, reorder_level := 8,
      max_stock := 100, cost_per_unit := 5 }
    (by decide) (by decide) (by decide) (by decide)

/-- C7 amended: in the color-and-size case each emitted SKU is
base ++ "-" ++ normalize_hyphen color ++ "-" ++ pyUpper size (the color
token is uppercased with spaces replaced by hyphens, the size token is
uppercased only); but in the size-only case each emitted SKU is
base ++ "-" ++ normalize_hyphen size: there the size token DOES get its
spaces replaced by hyphens (seed.py line 753). -/
theorem variant_sku_normalization (base : String) (colors sizes : List String)
    (item : InventoryTotals) :
    (colors ≠ [] → sizes ≠ [] →
      (seed_inventory_rows base colors sizes item).map (fun r => r.sku)
        = (crossPairs colors sizes).map
            (fun p => base ++ "-" ++ normalize_hyphen p.1 ++ "-" ++ pyUpper p.2)) ∧
    (colors = [] → sizes ≠ [] →
      (seed_inventory_rows base colors sizes item).map (fun r => r.sku)
        = sizes.map (fun s => base ++ "-" ++ normalize_hyphen s)) := by
  constructor
  · intro h1 h2
    rw [seed_rows_both base item h1 h2]
    exact variantRowsBoth_map_sku base colors sizes item
  · intro h1 h2
    subst h1
    rw [seed_rows_sizes base item h2]
    exact variantRowsSizes_map_sku base sizes item

/-- C7 counterexample: in the size-only case the size token "Extra
Large" is emitted as "B-EXTRA-LARGE" (spaces replaced by hyphens), not
as the uppercased-only "B-EXTRA LARGE" the claim requires. -/
theorem variant_sku_normalization_counterexample :
    ((seed_inventory_rows "B" [] ["Extra Large"]
        { quantity_available := 3, quantity_reserved := 0, reorder_level := 1,
          max_stock := 10, cost_per_unit := 1 }).map (fun r => r.sku))
      = ["B-EXTRA-LARGE"] ∧
    "B-EXTRA-LARGE" ≠ "B" ++ "-" ++ pyUpper "Extra Large" :=
  ⟨by decide, by decide⟩

/-- Witness for the amended C7 at spec Example 2 (size-only case). -/
theorem variant_sku_normalization_witness :
    ((seed_inventory_rows "BOOK1" [] ["Paperback", "Hardcover", "Audiobook"]
        { quantity_available := 7, quantity_reserved := 0, reorder_level := 4,
          max_stock := 40, cost_per_unit := 2 }).map (fun r => r.sku))
      = ["BOOK1-PAPERBACK", "BOOK1-HARDCOVER", "BOOK1-AUDIOBOOK"] :=
  (variant_sku_normalization "BOOK1" [] ["Paperback", "Hardcover", "Audiobook"]
    { quantity_available := 7, quantity_reserved := 0, reorder_level := 4,
      max_stock := 40, cost_per_unit := 2 }).2 rfl (by decide)

/-- C8: when both axes are empty the expansion emits exactly one row
whose SKU is base_sku unchanged and whose quantities are copied verbatim
from the input totals. -/
theorem base_row_passthrough (base : String) (colors sizes : List String)
    (item : InventoryTotals) (hc : colors = []) (hs : sizes = []) :
    seed_inventory_rows base colors sizes item
      = [{ sku := base, quantity_available := item.quantity_available,
           quantity_reserved := item.quantity_reserved,
           reorder_level := item.reorder_level, max_stock := item.max_stock,
           cost_per_unit := item.cost_per_unit }] := by
  subst hc; subst hs
  rw [seed_rows_base]
  rfl

/-- Witness for C8 at spec Example 3 (base_sku "X", quantity 50). -/
theorem base_row_passthrough_witness :
    seed_inventory_rows "X" [] []
        { quantity_available := 50, quantity_reserved := 3, reorder_level := 8,
          max_stock := 100, cost_per_unit := 5 }
      = [{ sku := "X", quantity_available := 50, quantity_reserved := 3,
           reorder_level := 8, max_stock := 100, cost_per_unit := 5 }] :=
  base_row_passthrough "X" [] []
    { quantity_available := 50, quantity_reserved := 3, reorder_level := 8,
      max_stock := 100, cost_per_unit := 5 } rfl rfl

/-- C9: with at least one variation axis and n = total_variants, every
emitted row has reorder_level = max 1 (reorder_level fdiv n),
max_stock = max 10 (max_stock fdiv n), quantity_reserved = 0 and
cost_per_unit copied unchanged. -/
theorem per_variant_thresholds (base : String) (colors sizes : List String)
    (item : InventoryTotals) (hax : colors ≠ [] ∨ sizes ≠ []) :
    ∀ r ∈ seed_inventory_rows base colors sizes item,
      r.reorder_level
          = max 1 (item.reorder_level.fdiv (totalVariants colors sizes : Int)) ∧
      r.max_stock
          = max 10 (item.max_stock.fdiv (totalVariants colors sizes : Int)) ∧
      r.quantity_reserved = 0 ∧
      r.cost_per_unit = item.cost_per_unit := by
  by_cases hc : colors = []
  · by_cases hs : sizes = []
    · subst hc; subst hs; simp at hax
    · subst hc
      rw [seed_rows_sizes base item hs, totalVariants_sizes hs]
      intro r hr
      unfold variantRowsSizes at hr
      rw [List.mem_map] at hr
      obtain ⟨p, hp, rfl⟩ := hr
      exact ⟨rfl, rfl, rfl, rfl⟩
  · by_cases hs : sizes = []
    · subst hs
      rw [seed_rows_colors base item hc, totalVariants_colors hc]
      intro r hr
      unfold variantRowsColors at hr
      rw [List.mem_map] at hr
      obtain ⟨p, hp, rfl⟩ := hr
      exact ⟨rfl, rfl, rfl, rfl⟩
    · rw [seed_rows_both base item hc hs, totalVariants_both hc hs]
      intro r hr
      unfold variantRowsBoth at hr
      rw [List.mem_map] at hr
      obtain ⟨p, hp, rfl⟩ := hr
      exact ⟨rfl, rfl, rfl, rfl⟩

/-- Witness for C9: the single variant of base "B", color "Red", n = 1,
keeps reorder_level max(1, 5) = 5, max_stock max(10, 50) = 50, reserved
0 and cost 2. -/
theorem per_variant_thresholds_witness :
    (InventoryRow.mk "B-RED-S" 9 0 5 50 2).reorder_level
        = max 1 ((5 : Int).fdiv (totalVariants ["Red"] ["S"] : Int)) ∧
    (InventoryRow.mk "B-RED-S" 9 0 5 50 2).max_stock
        = max 10 ((50 : Int).fdiv (totalVariants ["Red"] ["S"] : Int)) ∧
    (InventoryRow.mk "B-RED-S" 9 0 5 50 2).quantity_reserved = 0 ∧
    (InventoryRow.mk "B-RED-S" 9 0 5 50 2).cost_per_unit = 2 :=
  per_variant_thresholds "B" ["Red"] ["S"]
    { quantity_available := 9, quantity_reserved := 0, reorder_level := 5,
      max_stock := 50, cost_per_unit := 2 }
    (Or.inl (by decide)) (InventoryRow.mk "B-RED-S" 9 0 5 50 2) (by decide)

/-- C10: on non-empty tokens made only of ASCII alphanumeric characters
(no whitespace or punctuation) generate_variant_sku agrees with the
inventory-side SKU construction of seed_inventory, and on the token
"Navy Blue" (a space) the two disagree: generate_variant_sku deletes
the space ("A-NAVYBLUE-M") while the inventory side replaces it with a
hyphen ("A-NAVY-BLUE-M"). -/
theorem generate_sku_refinement :
    (∀ b c s : String, c ≠ "" → s ≠ "" → isAlnumToken c → isAlnumToken s →
        generate_variant_sku b (some c) (some s) = inventory_variant_sku b c s) ∧
    generate_variant_sku "A" (some "Navy Blue") (some "M")
      ≠ inventory_variant_sku "A" "Navy Blue" "M" := by
  constructor
  · intro b c s hc hs hac has
    simp only [generate_variant_sku, inventory_variant_sku, normalize_hyphen]
    rw [if_pos hc, if_pos hs, cleanAlnum_of_alnum hac, cleanAlnum_of_alnum has,
      replaceSpaces_of_alnum hac]
  · decide

/-- Witness for C10 on the alphanumeric tokens "Black" and "M". -/
theorem generate_sku_refinement_witness :
    generate_variant_sku "WOM-CLO-TOP-001" (some "Black") (some "M")
      = inventory_variant_sku "WOM-CLO-TOP-001" "Black" "M" :=
  generate_sku_refinement.1 "WOM-CLO-TOP-001" "Black" "M"
    (by decide) (by decide) (by decide) (by decide)

end Seed
